import Mathlib

/- Verification development for the concurrent MercadoLibre price-comparison
   program (main.go, mercadolibre.go) and for the bank-rate scraper
   (dolarizame). JSON numbers decoded by the program are carried as exact
   decimal values: shopspring/decimal stores an arbitrary-precision decimal,
   and NewFromFloat of a decoded JSON number yields the decimal of the
   float's shortest representation. Such decimals are modelled as Rat. -/

/-- Decimal models a github.com/shopspring/decimal Decimal value: an exact
arbitrary-precision decimal, embedded as a rational number. -/
abbrev Decimal := Rat

/-- DivisionPrecision mirrors decimal.DivisionPrecision, the number of decimal
digits a quotient keeps (16 by default, never changed by this program). -/
def DivisionPrecision : Nat := 16

/-- roundHalfAwayFromZero rounds a rational to the nearest integer, ties away
from zero, as shopspring DivRound rounds the last kept digit. -/
def roundHalfAwayFromZero (q : Rat) : Int :=
  if 0 ≤ q then (q + 1/2).floor else (q - 1/2).ceil

/-- Decimal.mul models Decimal.Mul, which is exact (coefficients multiply,
exponents add). -/
def Decimal.mul (a b : Decimal) : Decimal := a * b

/-- Decimal.divRound models Decimal.DivRound. The library panics with
"decimal division by zero" when the divisor is zero; none models that panic.
Otherwise the exact quotient is rounded to the given number of decimal
digits, ties away from zero. -/
def Decimal.divRound (a b : Decimal) (precision : Nat) : Option Decimal :=
  if b = 0 then none
  else some ((roundHalfAwayFromZero (a / b * (10 : Rat) ^ precision) : Rat) / (10 : Rat) ^ precision)

/-- Decimal.div models Decimal.Div: DivRound at DivisionPrecision digits
(mercadolibre.go line 291 and part_000 line 84 call it). -/
def Decimal.div (a b : Decimal) : Option Decimal :=
  Decimal.divRound a b DivisionPrecision

/-- mlSite mirrors the mlSite struct of mercadolibre.go lines 17-21. -/
structure mlSite where
  DefaultCurrencyID : String
  ID : String
  Name : String
deriving DecidableEq

/-- ResultadoML mirrors mercadolibre.go lines 110-119; Price holds the decoded
"price" number as the exact decimal that GetPrice (NewFromFloat) produces
from it. -/
structure ResultadoML where
  Price : Decimal
  Title : String
  Permalink : String
  CurrencyID : String
deriving DecidableEq

/-- GetPrice mirrors ResultadoML.GetPrice of mercadolibre.go lines 122-124
(the decoded float is already carried as its decimal value in Price). -/
def ResultadoML.GetPrice (r : ResultadoML) : Decimal := r.Price

/-- ResultadosML mirrors mercadolibre.go lines 104-106: one page of search
results. -/
structure ResultadosML where
  Results : List ResultadoML
deriving DecidableEq

/-- usdCurrencyCode mirrors mercadolibre.go line 148. -/
def usdCurrencyCode : String := "USD"

/-- siteSearchResult mirrors mercadolibre.go lines 129-136; the field defaults
are Go's zero values, which failure sends leave unset; err carries the error
message the worker would print through the %v verb. -/
structure siteSearchResult where
  site : mlSite
  price : Decimal := 0
  priceUSD : Decimal := 0
  ratio : Decimal := 0
  item : String := ""
  err : Option String := none
deriving DecidableEq

/-- HttpGetOutcome models the observable result of one http.Get call: a
transport error, or a response with its status code, status text and body. -/
inductive HttpGetOutcome where
  | fail (e : String)
  | resp (statusCode : Nat) (status : String) (body : String)
deriving DecidableEq

/-- QueryMLEnv fixes the external collaborators one queryML call consults:
url.Parse of the search URL (an error, or success) and http.Get. -/
structure QueryMLEnv where
  urlParseError : Option String := none
  get : HttpGetOutcome
deriving DecidableEq

/-- queryML mirrors mercadolibre.go lines 77-101: parse the search URL, issue
the GET, fail on transport errors and on any status other than 200 OK, and
return the response body otherwise. Each error is wrapped exactly as the
corresponding fmt.Errorf call wraps it. -/
def queryML (env : QueryMLEnv) : Except String String :=
  match env.urlParseError with
  | some e => .error ("parsing mercado libre url: " ++ e)
  | none =>
    match env.get with
    | .fail e => .error ("querying mercado libre url: " ++ e)
    | .resp statusCode status body =>
      if statusCode ≠ 200 then .error ("requesting to mercado libre: " ++ status)
      else .ok body

/-- WEvent: the externally visible synchronization events of one queryForSite
call. join is currencyWait.Wait() returning (mercadolibre.go line 269); send
r is the completion of result <- r, a rendezvous on the unbuffered channel
(lines 230, 241, 253, 261, 272, 298); done is the deferred
callerWaiting.Done() firing (line 209). -/
inductive WEvent where
  | join
  | send (r : siteSearchResult)
  | done
deriving DecidableEq

/-- WorkerTrace: the events of one queryForSite call in program order.
panicked is true when the call ends in a runtime panic; the deferred Done
still runs during unwinding, and no outcome send happens after the panic. -/
structure WorkerTrace where
  events : List WEvent
  panicked : Bool
deriving DecidableEq

/-- WorkerEnv fixes what the collaborators of one queryForSite call return,
in the order the code consults them: queryML's collaborators, ioutil.ReadAll
of the body (line 238), json.Unmarshal into ResultadosML (line 250), and the
fetchCurrencyRate call the nested goroutine makes (line 223). -/
structure WorkerEnv where
  mlQuery : QueryMLEnv
  readAll : Except String String
  unmarshal : Except String ResultadosML
  currency : Except String Decimal

/-- queryForSite mirrors mercadolibre.go lines 204-305 as a trace of
synchronization events. The deferred Done of line 209 closes every trace.
Every early-return path (query failure line 229, read failure line 240,
unmarshal failure line 252, empty results line 260) sends one failure result
and returns without reaching currencyWait.Wait() of line 269; the remaining
paths wait (the join event), then either send the currency failure of line
272 or normalize the price (lines 289-295) and send the success of line 298.
The USD branch divides by the fetched ratio with Decimal.Div, which panics
when the ratio is zero; that panic is the one path with no send. -/
def queryForSite (searchCriteria : String) (site : mlSite) (env : WorkerEnv) : WorkerTrace :=
  match queryML env.mlQuery with
  | .error e => ⟨[.send { site := site, err := some e }, .done], false⟩
  | .ok _body =>
    match env.readAll with
    | .error e =>
      ⟨[.send { site := site, err := some ("reading mercado libre response body: " ++ e) }, .done], false⟩
    | .ok _bodyData =>
      match env.unmarshal with
      | .error e =>
        ⟨[.send { site := site, err := some ("unmarshaling mercado libre response body: " ++ e) }, .done], false⟩
      | .ok resultML =>
        match resultML.Results with
        | [] =>
          ⟨[.send { site := site, err := some "results not found in response" }, .done], false⟩
        | mlResult :: _ =>
          match env.currency with
          | .error currencyError =>
            ⟨[.join, .send { site := site, err := some ("getting currency ratio: " ++ currencyError) }, .done], false⟩
          | .ok currencyRatio =>
            if mlResult.CurrencyID = usdCurrencyCode then
              match Decimal.div mlResult.GetPrice currencyRatio with
              | none => ⟨[.join, .done], true⟩
              | some price =>
                ⟨[.join, .send { site := site, priceUSD := mlResult.GetPrice, price := price,
                                 item := mlResult.Title, ratio := currencyRatio }, .done], false⟩
            else
              ⟨[.join, .send { site := site, price := mlResult.GetPrice,
                               priceUSD := Decimal.mul mlResult.GetPrice currencyRatio,
                               item := mlResult.Title, ratio := currencyRatio }, .done], false⟩

/-- queryStageError: the error message, if any, produced by the site-query
stage of queryForSite (queryML, body read, unmarshal, empty-result check:
mercadolibre.go lines 227-266), with the wrapping the worker applies there.
none means the stage yielded a nonempty result list. -/
def queryStageError (env : WorkerEnv) : Option String :=
  match queryML env.mlQuery with
  | .error e => some e
  | .ok _ =>
    match env.readAll with
    | .error e => some ("reading mercado libre response body: " ++ e)
    | .ok _ =>
      match env.unmarshal with
      | .error e => some ("unmarshaling mercado libre response body: " ++ e)
      | .ok resultML =>
        match resultML.Results with
        | [] => some "results not found in response"
        | _ :: _ => none

/-- collectStep mirrors one iteration of the result-processing goroutine of
main.go lines 51-65 on receiving r: a result carrying a non-nil error is
reported and dropped (lines 55-58), any other is appended (line 59). -/
def collectStep (results : List siteSearchResult) (r : siteSearchResult) : List siteSearchResult :=
  if r.err.isSome then results else results ++ [r]

/-- runCollector: the results slice after the collector consumed the received
outcomes in order, starting from the empty slice of main.go line 27. -/
def runCollector (outs : List siteSearchResult) : List siteSearchResult :=
  outs.foldl collectStep []

/-- MEv: the synchronization events of one run of main (main.go lines 30-75)
with n worker goroutines. send i is worker i's outcome rendezvous on the
unbuffered resultChannel (send completion and the collector's receive are
one event); wdone i is worker i's deferred wg.Done; cancel is main calling
done() on line 72; stop is the collector taking the ctx.Done() branch and
returning (lines 60-62). -/
inductive MEv where
  | send (i : Nat)
  | wdone (i : Nat)
  | cancel
  | stop
deriving DecidableEq

/-- allMainEvents n: in a complete run each of the n workers rendezvouses
once and signals Done once, main cancels once, the collector honors the stop
once. -/
def allMainEvents (n : Nat) : List MEv :=
  ((List.range n).map MEv.send) ++ ((List.range n).map MEv.wdone) ++ [MEv.cancel, MEv.stop]

/-- ValidSchedule n sched: sched is a global ordering of the events that a
complete run of main with n workers can exhibit. perm: every event happens
exactly once. send_before_done: each worker's send completes before its
deferred wg.Done fires (queryForSite sends, returns, and only then the defer
of mercadolibre.go line 209 runs). done_before_cancel: main.go line 69 blocks
on wg.Wait() before calling done() on line 72, so every wg.Done precedes the
cancellation. cancel_before_stop: the collector's select only takes the
ctx.Done() branch after the context was cancelled. -/
structure ValidSchedule (n : Nat) (sched : List MEv) : Prop where
  perm : sched.Perm (allMainEvents n)
  send_before_done : ∀ i < n, sched.indexOf (MEv.send i) < sched.indexOf (MEv.wdone i)
  done_before_cancel : ∀ i < n, sched.indexOf (MEv.wdone i) < sched.indexOf MEv.cancel
  cancel_before_stop : sched.indexOf MEv.cancel < sched.indexOf MEv.stop

/-- USD mirrors part_000 line 14: the marker text of the dollar section of
the bank page. -/
def USD : String := "Dolar U.S.A"

/-- Cell: what extractUSD observes of one td node of the bank page: whether
the node has class "tit", and its text. -/
structure Cell where
  hasTit : Bool
  text : String
deriving DecidableEq

/-- ExtractState: the variables buy, sell and dollar of dolarizame
(part_000 lines 27-28) that the extractUSD closure mutates; the defaults are
Go's zero values. -/
structure ExtractState where
  buy : String := ""
  sell : String := ""
  dollar : Bool := false
deriving DecidableEq

/-- extractUSD mirrors part_000 lines 33-55 on one cell at index i within its
row: a "tit" cell whose text is the USD marker sets the dollar flag and
returns; otherwise, with the flag set, cell 1 is recorded as the buy text
and cell 2 as the sell text, the latter clearing the flag. -/
def extractUSD (st : ExtractState) (i : Nat) (c : Cell) : ExtractState :=
  if c.hasTit = true ∧ c.text = USD then { st with dollar := true }
  else
    let st1 := if st.dollar = true ∧ i = 1 then { st with buy := c.text } else st
    if st1.dollar = true ∧ i = 2 then { st1 with sell := c.text, dollar := false } else st1

/-- eachTd mirrors s.Find("td").Each(extractUSD) of part_000 line 64: fold
extractUSD over the row's cells, indexed from i upward. -/
def eachTd (st : ExtractState) (i : Nat) : List Cell → ExtractState
  | [] => st
  | c :: rest => eachTd (extractUSD st i c) (i + 1) rest

/-- processTable mirrors doc.Find("#billetes tr").Each of part_000 lines
63-65: each row's td cells are walked with indices restarting at 0. -/
def processTable (rows : List (List Cell)) : ExtractState :=
  rows.foldl (fun st row => eachTd st 0 row) {}

/-- replaceCommaDot mirrors strings.Replace(s, ",", ".", -1) of part_000
lines 69-70: every comma becomes a dot. -/
def replaceCommaDot (s : String) : String :=
  String.mk (s.data.map (fun c => if c == ',' then '.' else c))

/-- digitsVal: the natural number a list of decimal digit characters denotes. -/
def digitsVal (l : List Char) : Nat :=
  l.foldl (fun n c => n * 10 + (c.toNat - 48)) 0

/-- bigIntSetString models math/big Int.SetString in base 10 as
decimal.NewFromString uses it: an optional sign followed by a nonempty digit
string; anything else (the empty string included) fails. -/
def bigIntSetString (l : List Char) : Option Int :=
  match l with
  | '+' :: r => if r.isEmpty || !(r.all Char.isDigit) then none else some (digitsVal r)
  | '-' :: r => if r.isEmpty || !(r.all Char.isDigit) then none else some (-(digitsVal r : Int))
  | r => if r.isEmpty || !(r.all Char.isDigit) then none else some (digitsVal r)

/-- parseDecimal models decimal.NewFromString of shopspring/decimal: the
string splits on the decimal point; with one part the part is the integer
value, with two parts the glued digits carry an exponent recording the
fraction length, with more parts the parse fails; a part set that big.Int
rejects (the empty string among them) fails with the library's conversion
error. Exponent notation, which the library also accepts, never reaches it
from this program and is omitted. -/
def parseDecimal (s : String) : Except String Decimal :=
  match s.data.splitOn '.' with
  | [ip] =>
    match bigIntSetString ip with
    | some v => .ok (v : Rat)
    | none => .error ("can't convert " ++ s ++ " to decimal")
  | [ip, fp] =>
    match bigIntSetString (ip ++ fp) with
    | some v => .ok ((v : Rat) / (10 : Rat) ^ fp.length)
    | none => .error ("can't convert " ++ s ++ " to decimal")
  | _ => .error ("can't convert " ++ s ++ " to decimal: too many .s")

/-- BnaHttp models http.Get of the bank page (part_000 line 17): a transport
failure, or a response carrying the status and, as its relevant content, the
td cells of each tr row the Find("#billetes tr") selection walks. -/
inductive BnaHttp where
  | fail (e : String)
  | resp (statusCode : Nat) (status : String) (rows : List (List Cell))
deriving DecidableEq

/-- BnaEnv fixes the collaborators of one dolarizame call: http.Get and
goquery.NewDocumentFromReader (part_000 line 57), whose failure docError
carries. -/
structure BnaEnv where
  get : BnaHttp
  docError : Option String := none
deriving DecidableEq

/-- dolarizame mirrors part_000 lines 16-85. none models a panic of the final
decimal divisions (a zero divisor); otherwise the pair is the returned
(Decimal, error): every error path returns decimal.Zero together with a
non-nil error, and the success path divides ars by the buy/sell average. -/
def dolarizame (ars : Decimal) (env : BnaEnv) : Option (Decimal × Option String) :=
  match env.get with
  | .fail e => some (0, some ("getting bna website: " ++ e))
  | .resp statusCode status rows =>
    if statusCode ≠ 200 then
      some (0, some ("código de estado de la petición inesperado: " ++ toString statusCode ++ " " ++ status))
    else
      match env.docError with
      | some e => some (0, some ("reading site body: " ++ e))
      | none =>
        let st := processTable rows
        let sell := replaceCommaDot st.sell
        let buy := replaceCommaDot st.buy
        match parseDecimal sell with
        | .error e => some (0, some ("no se puede convertir el valor de venta a Decimal: " ++ e))
        | .ok numericSell =>
          match parseDecimal buy with
          | .error e => some (0, some ("no se puede convertir el valor de compra a Decimal: " ++ e))
          | .ok numericBuy =>
            let numericTotal := numericBuy + numericSell
            match Decimal.div numericTotal 2 with
            | none => none
            | some half =>
              match Decimal.div ars half with
              | none => none
              | some v => some (v, none)

/- Concrete sites and collaborator environments used by witnesses and
   counterexamples. -/

/-- siteMLA: a concrete site whose default currency is not the reference one. -/
def siteMLA : mlSite :=
  { DefaultCurrencyID := "ARS", ID := "MLA", Name := "Argentina" }

/-- siteMLB: a concrete site with currency BRL, as in the spec's scenario. -/
def siteMLB : mlSite :=
  { DefaultCurrencyID := "BRL", ID := "MLB", Name := "Brasil" }

/-- envQueryFail: the site query's http.Get fails; the rate lookup succeeds. -/
def envQueryFail : WorkerEnv :=
  { mlQuery := { get := .fail "connection refused" },
    readAll := .ok "",
    unmarshal := .ok { Results := [] },
    currency := .ok 1 }

/-- envEmptyResults: the site query succeeds with a well-formed page whose
result list is empty; the rate lookup succeeds. -/
def envEmptyResults : WorkerEnv :=
  { mlQuery := { get := .resp 200 "200 OK" "page" },
    readAll := .ok "page",
    unmarshal := .ok { Results := [] },
    currency := .ok 1 }

/-- envUSDZeroRatio: a successful query whose top listing is priced in USD,
with a fetched currency ratio of zero. -/
def envUSDZeroRatio : WorkerEnv :=
  { mlQuery := { get := .resp 200 "200 OK" "page" },
    readAll := .ok "page",
    unmarshal := .ok { Results := [{ Price := 999, Title := "iPhone 11 Pro Max 256gb",
                                     Permalink := "link", CurrencyID := "USD" }] },
    currency := .ok 0 }

/-- envBRL: the spec's scenario for site B: top listing priced 5000.00 in
BRL, fetched ratio 0.18. -/
def envBRL : WorkerEnv :=
  { mlQuery := { get := .resp 200 "200 OK" "page" },
    readAll := .ok "page",
    unmarshal := .ok { Results := [{ Price := 5000, Title := "iPhone 11 Pro Max 256gb",
                                     Permalink := "link", CurrencyID := "BRL" }] },
    currency := .ok (18/100) }

/-- C7: a well-formed response with an empty results list makes the worker
send a Failure outcome (an outcome whose error is non-nil, the
"results not found in response" error of mercadolibre.go line 263), never a
Success with zero values. -/
theorem C7_empty_results_failure (s : String) (site : mlSite) (env : WorkerEnv)
    (body bodyData : String)
    (hq : queryML env.mlQuery = .ok body)
    (hr : env.readAll = .ok bodyData)
    (hu : env.unmarshal = .ok { Results := [] }) :
    (queryForSite s site env).events =
      [WEvent.send { site := site, err := some "results not found in response" }, WEvent.done] := by
  unfold queryForSite
  rw [hq, hr, hu]

/-- C7 witness: the concrete empty-result environment. -/
theorem C7_empty_results_failure_witness :
    (queryForSite "iPhone 11 Pro Max" siteMLA envEmptyResults).events =
      [WEvent.send { site := siteMLA, err := some "results not found in response" }, WEvent.done] :=
  C7_empty_results_failure "iPhone 11 Pro Max" siteMLA envEmptyResults "page" "page" rfl rfl rfl

/- Path lemmas: one evaluation equation per execution path of queryForSite,
   used by the claim theorems below. -/

/-- qfs_query_error: the query-failure early return of mercadolibre.go lines
229-235. -/
theorem qfs_query_error (s : String) (site : mlSite) (env : WorkerEnv) (e : String)
    (hq : queryML env.mlQuery = Except.error e) :
    queryForSite s site env =
      ⟨[WEvent.send { site := site, err := some e }, WEvent.done], false⟩ := by
  unfold queryForSite
  simp [hq]

/-- qfs_read_error: the body-read-failure early return of lines 240-246. -/
theorem qfs_read_error (s : String) (site : mlSite) (env : WorkerEnv) (body e : String)
    (hq : queryML env.mlQuery = Except.ok body)
    (hr : env.readAll = Except.error e) :
    queryForSite s site env =
      ⟨[WEvent.send { site := site, err := some ("reading mercado libre response body: " ++ e) }, WEvent.done], false⟩ := by
  unfold queryForSite
  simp [hq, hr]

/-- qfs_unmarshal_error: the unmarshal-failure early return of lines 252-258. -/
theorem qfs_unmarshal_error (s : String) (site : mlSite) (env : WorkerEnv) (body bodyData e : String)
    (hq : queryML env.mlQuery = Except.ok body)
    (hr : env.readAll = Except.ok bodyData)
    (hu : env.unmarshal = Except.error e) :
    queryForSite s site env =
      ⟨[WEvent.send { site := site, err := some ("unmarshaling mercado libre response body: " ++ e) }, WEvent.done], false⟩ := by
  unfold queryForSite
  simp [hq, hr, hu]

/-- qfs_empty_results: the empty-result early return of lines 260-266. -/
theorem qfs_empty_results (s : String) (site : mlSite) (env : WorkerEnv) (body bodyData : String)
    (resultML : ResultadosML)
    (hq : queryML env.mlQuery = Except.ok body)
    (hr : env.readAll = Except.ok bodyData)
    (hu : env.unmarshal = Except.ok resultML)
    (hres : resultML.Results = []) :
    queryForSite s site env =
      ⟨[WEvent.send { site := site, err := some "results not found in response" }, WEvent.done], false⟩ := by
  unfold queryForSite
  simp [hq, hr, hu, hres]

/-- qfs_currency_error: the rate-lookup-failure return of lines 269-277: the
worker joins the currency goroutine, then sends the wrapped currency error. -/
theorem qfs_currency_error (s : String) (site : mlSite) (env : WorkerEnv) (body bodyData : String)
    (resultML : ResultadosML) (mlResult : ResultadoML) (rest : List ResultadoML) (ce : String)
    (hq : queryML env.mlQuery = Except.ok body)
    (hr : env.readAll = Except.ok bodyData)
    (hu : env.unmarshal = Except.ok resultML)
    (hres : resultML.Results = mlResult :: rest)
    (hc : env.currency = Except.error ce) :
    queryForSite s site env =
      ⟨[WEvent.join, WEvent.send { site := site, err := some ("getting currency ratio: " ++ ce) }, WEvent.done], false⟩ := by
  unfold queryForSite
  simp [hq, hr, hu, hres, hc]

/-- qfs_panic: the division-by-zero panic inside lines 289-291: currency is
USD and the fetched ratio is zero, so Decimal.Div panics; the deferred Done
fires with no send. -/
theorem qfs_panic (s : String) (site : mlSite) (env : WorkerEnv) (body bodyData : String)
    (resultML : ResultadosML) (mlResult : ResultadoML) (rest : List ResultadoML)
    (currencyRatio : Decimal)
    (hq : queryML env.mlQuery = Except.ok body)
    (hr : env.readAll = Except.ok bodyData)
    (hu : env.unmarshal = Except.ok resultML)
    (hres : resultML.Results = mlResult :: rest)
    (hc : env.currency = Except.ok currencyRatio)
    (hcur : mlResult.CurrencyID = usdCurrencyCode)
    (hdiv : Decimal.div mlResult.GetPrice currencyRatio = none) :
    queryForSite s site env = ⟨[WEvent.join, WEvent.done], true⟩ := by
  unfold queryForSite
  simp [hq, hr, hu, hres, hc, hcur, hdiv]

/-- qfs_success_usd: the success path of lines 289-304 for a listing priced
in USD: priceUSD is the listing price, price is the rounded decimal quotient
of the listing price by the fetched ratio. -/
theorem qfs_success_usd (s : String) (site : mlSite) (env : WorkerEnv) (body bodyData : String)
    (resultML : ResultadosML) (mlResult : ResultadoML) (rest : List ResultadoML)
    (currencyRatio price : Decimal)
    (hq : queryML env.mlQuery = Except.ok body)
    (hr : env.readAll = Except.ok bodyData)
    (hu : env.unmarshal = Except.ok resultML)
    (hres : resultML.Results = mlResult :: rest)
    (hc : env.currency = Except.ok currencyRatio)
    (hcur : mlResult.CurrencyID = usdCurrencyCode)
    (hdiv : Decimal.div mlResult.GetPrice currencyRatio = some price) :
    queryForSite s site env =
      ⟨[WEvent.join, WEvent.send { site := site, priceUSD := mlResult.GetPrice, price := price, item := mlResult.Title, ratio := currencyRatio }, WEvent.done], false⟩ := by
  unfold queryForSite
  simp [hq, hr, hu, hres, hc, hcur, hdiv]

/-- qfs_success_foreign: the success path of lines 292-304 for a listing in
any other currency: price is the listing price, priceUSD is the exact
decimal product of the listing price and the fetched ratio. -/
theorem qfs_success_foreign (s : String) (site : mlSite) (env : WorkerEnv) (body bodyData : String)
    (resultML : ResultadosML) (mlResult : ResultadoML) (rest : List ResultadoML)
    (currencyRatio : Decimal)
    (hq : queryML env.mlQuery = Except.ok body)
    (hr : env.readAll = Except.ok bodyData)
    (hu : env.unmarshal = Except.ok resultML)
    (hres : resultML.Results = mlResult :: rest)
    (hc : env.currency = Except.ok currencyRatio)
    (hcur : mlResult.CurrencyID ≠ usdCurrencyCode) :
    queryForSite s site env =
      ⟨[WEvent.join, WEvent.send { site := site, price := mlResult.GetPrice, priceUSD := Decimal.mul mlResult.GetPrice currencyRatio, item := mlResult.Title, ratio := currencyRatio }, WEvent.done], false⟩ := by
  unfold queryForSite
  simp [hq, hr, hu, hres, hc, hcur]

/-- C2 (amended): every invocation of queryForSite that does not panic sends
exactly one siteSearchResult on the outcome channel, and that send completes
before the deferred wg.Done fires: the trace is one send followed by done,
optionally preceded by the currency join. The panic path (top listing priced
in USD with a fetched ratio of zero) violates the claim as stated: done
fires with no send at all. -/
theorem C2_one_send_before_done (s : String) (site : mlSite) (env : WorkerEnv)
    (h : (queryForSite s site env).panicked = false) :
    ∃ r, (queryForSite s site env).events = [WEvent.send r, WEvent.done] ∨
         (queryForSite s site env).events = [WEvent.join, WEvent.send r, WEvent.done] := by
  cases h1 : queryML env.mlQuery with
  | error e => rw [qfs_query_error s site env e h1]; exact ⟨_, Or.inl rfl⟩
  | ok body =>
    cases h2 : env.readAll with
    | error e => rw [qfs_read_error s site env body e h1 h2]; exact ⟨_, Or.inl rfl⟩
    | ok bodyData =>
      cases h3 : env.unmarshal with
      | error e => rw [qfs_unmarshal_error s site env body bodyData e h1 h2 h3]; exact ⟨_, Or.inl rfl⟩
      | ok resultML =>
        cases h4 : resultML.Results with
        | nil => rw [qfs_empty_results s site env body bodyData resultML h1 h2 h3 h4]; exact ⟨_, Or.inl rfl⟩
        | cons mlResult rest =>
          cases h5 : env.currency with
          | error ce =>
            rw [qfs_currency_error s site env body bodyData resultML mlResult rest ce h1 h2 h3 h4 h5]
            exact ⟨_, Or.inr rfl⟩
          | ok currencyRatio =>
            by_cases h6 : mlResult.CurrencyID = usdCurrencyCode
            · cases h7 : Decimal.div mlResult.GetPrice currencyRatio with
              | none =>
                rw [qfs_panic s site env body bodyData resultML mlResult rest currencyRatio
                      h1 h2 h3 h4 h5 h6 h7] at h
                exact Bool.noConfusion (show true = false from h)
              | some price =>
                rw [qfs_success_usd s site env body bodyData resultML mlResult rest currencyRatio price
                      h1 h2 h3 h4 h5 h6 h7]
                exact ⟨_, Or.inr rfl⟩
            · rw [qfs_success_foreign s site env body bodyData resultML mlResult rest currencyRatio
                    h1 h2 h3 h4 h5 h6]
              exact ⟨_, Or.inr rfl⟩

/-- C2 counterexample: with the top listing priced in USD and a fetched
ratio of zero, the invocation panics after joining the currency goroutine:
the deferred Done fires (the trace ends) with no send at all, so not every
execution of the worker sends exactly one outcome before Done fires. -/
theorem C2_counterexample :
    (queryForSite "iPhone 11 Pro Max" siteMLA envUSDZeroRatio).events =
      [WEvent.join, WEvent.done] ∧
    (queryForSite "iPhone 11 Pro Max" siteMLA envUSDZeroRatio).panicked = true :=
  ⟨rfl, rfl⟩

/-- C2 witness: a concrete non-panicking run (the empty-result failure path)
sends exactly one outcome before its done. -/
theorem C2_one_send_before_done_witness :
    ∃ r, (queryForSite "iPhone 11 Pro Max" siteMLA envEmptyResults).events =
           [WEvent.send r, WEvent.done] ∨
         (queryForSite "iPhone 11 Pro Max" siteMLA envEmptyResults).events =
           [WEvent.join, WEvent.send r, WEvent.done] :=
  C2_one_send_before_done "iPhone 11 Pro Max" siteMLA envEmptyResults rfl

/-- C4 (amended): queryForSite never panics — every failure is encoded in
the sent siteSearchResult — provided that whenever the top listing is priced
in the reference currency USD the fetched ratio is nonzero. Without that
proviso the decimal division of mercadolibre.go line 291 panics, so the
claim as stated (no panic even for a zero fetched ratio) is false on the
code. -/
theorem C4_no_panic_when_usd_ratio_nonzero (s : String) (site : mlSite) (env : WorkerEnv)
    (h : ∀ resultML mlResult rest currencyRatio,
        env.unmarshal = Except.ok resultML →
        resultML.Results = mlResult :: rest →
        env.currency = Except.ok currencyRatio →
        mlResult.CurrencyID = usdCurrencyCode → currencyRatio ≠ 0) :
    (queryForSite s site env).panicked = false := by
  cases h1 : queryML env.mlQuery with
  | error e => rw [qfs_query_error s site env e h1]
  | ok body =>
    cases h2 : env.readAll with
    | error e => rw [qfs_read_error s site env body e h1 h2]
    | ok bodyData =>
      cases h3 : env.unmarshal with
      | error e => rw [qfs_unmarshal_error s site env body bodyData e h1 h2 h3]
      | ok resultML =>
        cases h4 : resultML.Results with
        | nil => rw [qfs_empty_results s site env body bodyData resultML h1 h2 h3 h4]
        | cons mlResult rest =>
          cases h5 : env.currency with
          | error ce =>
            rw [qfs_currency_error s site env body bodyData resultML mlResult rest ce h1 h2 h3 h4 h5]
          | ok currencyRatio =>
            by_cases h6 : mlResult.CurrencyID = usdCurrencyCode
            · cases h7 : Decimal.div mlResult.GetPrice currencyRatio with
              | none =>
                exfalso
                apply h resultML mlResult rest currencyRatio h3 h4 h5 h6
                unfold Decimal.div Decimal.divRound at h7
                by_cases hz : currencyRatio = 0
                · exact hz
                · rw [if_neg hz] at h7; exact Option.noConfusion h7
              | some price =>
                rw [qfs_success_usd s site env body bodyData resultML mlResult rest currencyRatio price
                      h1 h2 h3 h4 h5 h6 h7]
            · rw [qfs_success_foreign s site env body bodyData resultML mlResult rest currencyRatio
                    h1 h2 h3 h4 h5 h6]

/-- C4 counterexample: on a successful query whose top listing is priced in
USD and whose fetched currency ratio is zero, queryForSite panics (decimal
division by zero at mercadolibre.go line 291) instead of encoding the
failure in the returned outcome. -/
theorem C4_counterexample :
    (queryForSite "iPhone 11 Pro Max" siteMLA envUSDZeroRatio).panicked = true :=
  rfl

/-- C4 witness: a concrete run satisfying the proviso (here vacuously: the
result list is empty) does not panic. -/
theorem C4_no_panic_when_usd_ratio_nonzero_witness :
    (queryForSite "iPhone 11 Pro Max" siteMLA envEmptyResults).panicked = false := by
  apply C4_no_panic_when_usd_ratio_nonzero
  intro resultML mlResult rest currencyRatio hu hres hc hcur
  have hr : resultML = { Results := [] } := by
    have : (envEmptyResults.unmarshal = Except.ok resultML) = (Except.ok { Results := [] } = Except.ok resultML) := rfl
    rw [this] at hu
    exact (Except.ok.injEq _ _).mp hu.symm ▸ rfl
  rw [hr] at hres
  exact absurd hres (by simp)

/-- runCollector_eq_filter: the collector keeps exactly the outcomes whose
error is nil, in arrival order. -/
theorem runCollector_eq_filter (outs : List siteSearchResult) :
    runCollector outs = outs.filter (fun r => r.err.isNone) := by
  have h : ∀ acc, List.foldl collectStep acc outs = acc ++ outs.filter (fun r => r.err.isNone) := by
    induction outs with
    | nil => intro acc; simp
    | cons r rest ih =>
      intro acc
      cases hr : r.err with
      | none =>
        have hcs : collectStep acc r = acc ++ [r] := by unfold collectStep; rw [hr]; rfl
        rw [List.foldl_cons, hcs, ih, List.filter_cons]
        simp [hr]
      | some msg =>
        have hcs : collectStep acc r = acc := by unfold collectStep; rw [hr]; rfl
        rw [List.foldl_cons, hcs, ih, List.filter_cons]
        simp [hr]
  have h0 := h []
  rw [List.nil_append] at h0
  exact h0

/-- C5: a worker whose site-query stage fails (network, body-read, parse or
empty-result) sends the Failure outcome immediately — its trace holds no
join of the rate lookup, and the whole run is independent of what the rate
lookup returns; a worker whose site-query stage succeeds first joins the
rate lookup (join opens its trace), and when that lookup failed it sends the
Failure carrying the wrapped rate error. -/
theorem C5_query_failure_immediate_rate_wait_on_success (s : String) (site : mlSite) (env : WorkerEnv) :
    (∀ e, queryStageError env = some e →
        (queryForSite s site env).events = [WEvent.send { site := site, err := some e }, WEvent.done] ∧
        ∀ cur, queryForSite s site { env with currency := cur } = queryForSite s site env) ∧
    (queryStageError env = none →
        (queryForSite s site env).events.head? = some WEvent.join ∧
        ∀ ce, env.currency = Except.error ce →
          (queryForSite s site env).events =
            [WEvent.join, WEvent.send { site := site, err := some ("getting currency ratio: " ++ ce) }, WEvent.done]) := by
  constructor
  · intro e he
    cases h1 : queryML env.mlQuery with
    | error e1 =>
      have he1 : queryStageError env = some e1 := by unfold queryStageError; simp [h1]
      have heq : some e = some e1 := he.symm.trans he1
      injection heq with heq
      subst heq
      refine ⟨by rw [qfs_query_error s site env e h1], ?_⟩
      intro cur
      rw [qfs_query_error s site { env with currency := cur } e h1, qfs_query_error s site env e h1]
    | ok body =>
      cases h2 : env.readAll with
      | error e2 =>
        have he1 : queryStageError env = some ("reading mercado libre response body: " ++ e2) := by
          unfold queryStageError; simp [h1, h2]
        have heq : some e = some ("reading mercado libre response body: " ++ e2) := he.symm.trans he1
        injection heq with heq
        subst heq
        refine ⟨by rw [qfs_read_error s site env body e2 h1 h2], ?_⟩
        intro cur
        rw [qfs_read_error s site { mlQuery := env.mlQuery, readAll := Except.error e2, unmarshal := env.unmarshal, currency := cur } body e2 h1 rfl,
            qfs_read_error s site env body e2 h1 h2]
      | ok bodyData =>
        cases h3 : env.unmarshal with
        | error e3 =>
          have he1 : queryStageError env = some ("unmarshaling mercado libre response body: " ++ e3) := by
            unfold queryStageError; simp [h1, h2, h3]
          have heq : some e = some ("unmarshaling mercado libre response body: " ++ e3) := he.symm.trans he1
          injection heq with heq
          subst heq
          refine ⟨by rw [qfs_unmarshal_error s site env body bodyData e3 h1 h2 h3], ?_⟩
          intro cur
          rw [qfs_unmarshal_error s site { mlQuery := env.mlQuery, readAll := Except.ok bodyData, unmarshal := Except.error e3, currency := cur } body bodyData e3 h1 rfl rfl,
              qfs_unmarshal_error s site env body bodyData e3 h1 h2 h3]
        | ok resultML =>
          cases h4 : resultML.Results with
          | nil =>
            have he1 : queryStageError env = some "results not found in response" := by
              unfold queryStageError; simp [h1, h2, h3, h4]
            have heq : some e = some "results not found in response" := he.symm.trans he1
            injection heq with heq
            subst heq
            refine ⟨by rw [qfs_empty_results s site env body bodyData resultML h1 h2 h3 h4], ?_⟩
            intro cur
            rw [qfs_empty_results s site { mlQuery := env.mlQuery, readAll := Except.ok bodyData, unmarshal := Except.ok resultML, currency := cur } body bodyData resultML h1 rfl rfl h4,
                qfs_empty_results s site env body bodyData resultML h1 h2 h3 h4]
          | cons mlResult rest =>
            have he1 : queryStageError env = none := by
              unfold queryStageError; simp [h1, h2, h3, h4]
            exact Option.noConfusion (he1.symm.trans he)
  · intro hnone
    cases h1 : queryML env.mlQuery with
    | error e1 =>
      have he1 : queryStageError env = some e1 := by unfold queryStageError; simp [h1]
      exact Option.noConfusion (hnone.symm.trans he1)
    | ok body =>
      cases h2 : env.readAll with
      | error e2 =>
        have he1 : queryStageError env = some ("reading mercado libre response body: " ++ e2) := by
          unfold queryStageError; simp [h1, h2]
        exact Option.noConfusion (hnone.symm.trans he1)
      | ok bodyData =>
        cases h3 : env.unmarshal with
        | error e3 =>
          have he1 : queryStageError env = some ("unmarshaling mercado libre response body: " ++ e3) := by
            unfold queryStageError; simp [h1, h2, h3]
          exact Option.noConfusion (hnone.symm.trans he1)
        | ok resultML =>
          cases h4 : resultML.Results with
          | nil =>
            have he1 : queryStageError env = some "results not found in response" := by
              unfold queryStageError; simp [h1, h2, h3, h4]
            exact Option.noConfusion (hnone.symm.trans he1)
          | cons mlResult rest =>
            constructor
            · cases h5 : env.currency with
              | error ce =>
                rw [qfs_currency_error s site env body bodyData resultML mlResult rest ce h1 h2 h3 h4 h5]
                rfl
              | ok currencyRatio =>
                by_cases h6 : mlResult.CurrencyID = usdCurrencyCode
                · cases h7 : Decimal.div mlResult.GetPrice currencyRatio with
                  | none =>
                    rw [qfs_panic s site env body bodyData resultML mlResult rest currencyRatio
                          h1 h2 h3 h4 h5 h6 h7]
                    rfl
                  | some price =>
                    rw [qfs_success_usd s site env body bodyData resultML mlResult rest currencyRatio price
                          h1 h2 h3 h4 h5 h6 h7]
                    rfl
                · rw [qfs_success_foreign s site env body bodyData resultML mlResult rest currencyRatio
                        h1 h2 h3 h4 h5 h6]
                  rfl
            · intro ce hce
              rw [qfs_currency_error s site env body bodyData resultML mlResult rest ce h1 h2 h3 h4 hce]

/-- C5 witness: the concrete failing-query run sends the query error at once. -/
theorem C5_query_failure_immediate_rate_wait_on_success_witness :
    (queryForSite "iPhone 11 Pro Max" siteMLA envQueryFail).events =
      [WEvent.send { site := siteMLA, err := some "querying mercado libre url: connection refused" }, WEvent.done] :=
  (((C5_query_failure_immediate_rate_wait_on_success "iPhone 11 Pro Max" siteMLA envQueryFail).1) _ rfl).1

/-- C6: if a site's query stage fails, that site never reaches the final
result list: every outcome such a worker sends carries the (non-nil) query
error, and the collector of main.go lines 54-59 appends only outcomes whose
error is nil, so no outcome for that site survives into the ResultSet —
whatever the currency lookup returned. -/
theorem C6_failed_query_not_in_results (s : String) (site : mlSite) (env : WorkerEnv) (e : String)
    (hq : queryStageError env = some e) :
    (∀ r, WEvent.send r ∈ (queryForSite s site env).events → r.err = some e) ∧
    (∀ outs : List siteSearchResult,
      (∀ r ∈ outs, r.site = site → r.err.isSome = true) →
      ∀ r ∈ runCollector outs, r.site ≠ site) := by
  constructor
  · intro r hr
    have hev := ((C5_query_failure_immediate_rate_wait_on_success s site env).1 e hq).1
    rw [hev] at hr
    simp only [List.mem_cons, List.not_mem_nil, or_false] at hr
    rcases hr with h | h
    · injection h with h'
      rw [h']
    · exact WEvent.noConfusion h
  · intro outs houts r hr hrs
    rw [runCollector_eq_filter, List.mem_filter] at hr
    obtain ⟨hin, hnone⟩ := hr
    have hsome := houts r hin hrs
    cases hre : r.err with
    | none => rw [hre] at hsome; exact Bool.noConfusion hsome
    | some m => rw [hre] at hnone; exact Bool.noConfusion hnone

/-- C6 witness: the outcome the concrete failing-query worker sends carries
the non-nil query error. -/
theorem C6_failed_query_not_in_results_witness :
    ({ site := siteMLA, err := some "querying mercado libre url: connection refused" } : siteSearchResult).err =
      some "querying mercado libre url: connection refused" :=
  (C6_failed_query_not_in_results "iPhone 11 Pro Max" siteMLA envQueryFail
      "querying mercado libre url: connection refused" rfl).1
    { site := siteMLA, err := some "querying mercado libre url: connection refused" }
    (List.Mem.head _)

/-- C9 (amended): the worker joins its nested rate-lookup goroutine
(currencyWait.Wait(), mercadolibre.go line 269) only on the paths where the
site-query stage succeeds; on every query-failure early return the worker
sends and returns without joining, so the rate-lookup goroutine can outlive
its owning worker there. The claim as stated — joined on every path,
including the early returns — is false on the code. -/
theorem C9_join_only_when_query_succeeds (s : String) (site : mlSite) (env : WorkerEnv) :
    (queryStageError env = none → (queryForSite s site env).events.head? = some WEvent.join) ∧
    (∀ e, queryStageError env = some e → WEvent.join ∉ (queryForSite s site env).events) := by
  constructor
  · intro hnone
    exact ((C5_query_failure_immediate_rate_wait_on_success s site env).2 hnone).1
  · intro e he
    have hev := ((C5_query_failure_immediate_rate_wait_on_success s site env).1 e he).1
    rw [hev]
    intro hmem
    simp only [List.mem_cons, List.not_mem_nil, or_false] at hmem
    rcases hmem with h | h
    · exact WEvent.noConfusion h
    · exact WEvent.noConfusion h

/-- C9 counterexample: in the concrete run whose site query fails, the trace
holds no join of the nested currency goroutine: the worker returned without
joining it, so the nested task was not joined before the worker's return. -/
theorem C9_counterexample :
    WEvent.join ∉ (queryForSite "iPhone 11 Pro Max" siteMLA envQueryFail).events := by
  decide

/-- C9 witness: in the concrete successful-query run the worker does join
the currency goroutine before sending. -/
theorem C9_join_only_when_query_succeeds_witness :
    (queryForSite "iPhone 11 Pro Max" siteMLB envBRL).events.head? = some WEvent.join :=
  (C9_join_only_when_query_succeeds "iPhone 11 Pro Max" siteMLB envBRL).1 rfl

/-- C3: on every successful outcome, a listing already in the reference
currency USD keeps its price as priceUSD and gets price (the native value)
as the decimal quotient of the listing price by the fetched ratio; any other
listing keeps its price as price and gets priceUSD as the exact decimal
product of the listing price and the fetched ratio (mercadolibre.go lines
289-295). The spec's example is the witness: 5000.00 BRL at ratio 0.18
yields nativePrice 5000.00 and referencePrice 900.00. -/
theorem C3_price_normalization (s : String) (site : mlSite) (env : WorkerEnv)
    (body bodyData : String) (resultML : ResultadosML) (mlResult : ResultadoML)
    (rest : List ResultadoML) (currencyRatio : Decimal)
    (hq : queryML env.mlQuery = Except.ok body)
    (hr : env.readAll = Except.ok bodyData)
    (hu : env.unmarshal = Except.ok resultML)
    (hres : resultML.Results = mlResult :: rest)
    (hc : env.currency = Except.ok currencyRatio) :
    (∀ price, mlResult.CurrencyID = usdCurrencyCode →
      Decimal.div mlResult.GetPrice currencyRatio = some price →
      (queryForSite s site env).events =
        [WEvent.join, WEvent.send { site := site, priceUSD := mlResult.GetPrice, price := price, item := mlResult.Title, ratio := currencyRatio }, WEvent.done]) ∧
    (mlResult.CurrencyID ≠ usdCurrencyCode →
      (queryForSite s site env).events =
        [WEvent.join, WEvent.send { site := site, price := mlResult.GetPrice, priceUSD := Decimal.mul mlResult.GetPrice currencyRatio, item := mlResult.Title, ratio := currencyRatio }, WEvent.done]) := by
  constructor
  · intro price hcur hdiv
    rw [qfs_success_usd s site env body bodyData resultML mlResult rest currencyRatio price
          hq hr hu hres hc hcur hdiv]
  · intro hcur
    rw [qfs_success_foreign s site env body bodyData resultML mlResult rest currencyRatio
          hq hr hu hres hc hcur]

/-- C3 witness: the spec's site-B scenario, listing 5000.00 BRL with fetched
ratio 0.18: nativePrice 5000.00, referencePrice 900.00. -/
theorem C3_price_normalization_witness :
    (queryForSite "iPhone 11 Pro Max" siteMLB envBRL).events =
      [WEvent.join, WEvent.send { site := siteMLB, price := 5000, priceUSD := 900, item := "iPhone 11 Pro Max 256gb", ratio := 18/100 }, WEvent.done] := by
  have h := (C3_price_normalization "iPhone 11 Pro Max" siteMLB envBRL "page" "page"
      { Results := [{ Price := 5000, Title := "iPhone 11 Pro Max 256gb", Permalink := "link", CurrencyID := "BRL" }] }
      { Price := 5000, Title := "iPhone 11 Pro Max 256gb", Permalink := "link", CurrencyID := "BRL" }
      [] (18/100) rfl rfl rfl rfl rfl).2 (by decide)
  rw [h]
  simp only [List.cons.injEq, WEvent.send.injEq, siteSearchResult.mk.injEq, and_true, true_and]
  norm_num [Decimal.mul, ResultadoML.GetPrice]

/-- envParseFail: the site query returns a body json.Unmarshal rejects. -/
def envParseFail : WorkerEnv :=
  { mlQuery := { get := .resp 200 "200 OK" "page" },
    readAll := .ok "page",
    unmarshal := .error "invalid character",
    currency := .ok 1 }

/-- envBadStatus: the site query's http.Get returns a non-200 status. -/
def envBadStatus : WorkerEnv :=
  { mlQuery := { get := .resp 404 "404 Not Found" "" },
    readAll := .ok "",
    unmarshal := .ok { Results := [] },
    currency := .ok 1 }

/-- data_app: the characters of an appended string are the appended
character lists. -/
theorem data_app (s t : String) : (s ++ t).data = s.data ++ t.data := by
  cases s; cases t; rfl

/-- append_ne_of_take: a string with prefix p differs from q whenever their
first n characters differ and p has at least n of them. -/
theorem append_ne_of_take (p q r : String) (n : Nat)
    (hp : n ≤ p.data.length) (h : p.data.take n ≠ q.data.take n) : p ++ r ≠ q := by
  intro he
  apply h
  have h2 : p.data ++ r.data = q.data := by rw [← data_app, he]
  have h3 := congrArg (List.take n) h2
  rw [List.take_append_of_le_length hp] at h3
  exact h3

/-- append_ne_append_of_take: strings with prefixes p and q differ whenever
the first n characters of the prefixes differ. -/
theorem append_ne_append_of_take (p q r t : String) (n : Nat)
    (hp : n ≤ p.data.length) (hq : n ≤ q.data.length)
    (h : p.data.take n ≠ q.data.take n) : p ++ r ≠ q ++ t := by
  intro he
  apply h
  have h2 : p.data ++ r.data = q.data ++ t.data := by rw [← data_app, ← data_app, he]
  have h3 := congrArg (List.take n) h2
  rw [List.take_append_of_le_length hp, List.take_append_of_le_length hq] at h3
  exact h3

/-- C8: the empty-result error is a value distinct from every network error
(transport failure or non-200 status) and from every parse error the
site-query stage can produce, whatever the collaborators' underlying error
texts, and network errors are likewise distinct from parse errors — so the
aggregating consumer can report "no listing found" distinctly from "site
unreachable" by inspecting the outcome's error. -/
theorem C8_error_kinds_distinguishable
    (env1 env2 env3 env4 : WorkerEnv)
    (e1 e3 status4 : String) (body2 data2 body3 data3 body4 : String)
    (res2 : ResultadosML) (code4 : Nat)
    (h1u : env1.mlQuery.urlParseError = none)
    (h1g : env1.mlQuery.get = HttpGetOutcome.fail e1)
    (h2q : queryML env2.mlQuery = Except.ok body2)
    (h2r : env2.readAll = Except.ok data2)
    (h2m : env2.unmarshal = Except.ok res2)
    (h2e : res2.Results = [])
    (h3q : queryML env3.mlQuery = Except.ok body3)
    (h3r : env3.readAll = Except.ok data3)
    (h3m : env3.unmarshal = Except.error e3)
    (h4u : env4.mlQuery.urlParseError = none)
    (h4g : env4.mlQuery.get = HttpGetOutcome.resp code4 status4 body4)
    (h4c : code4 ≠ 200) :
    queryStageError env1 ≠ queryStageError env2 ∧
    queryStageError env4 ≠ queryStageError env2 ∧
    queryStageError env3 ≠ queryStageError env2 ∧
    queryStageError env1 ≠ queryStageError env3 ∧
    queryStageError env4 ≠ queryStageError env3 := by
  have q1 : queryStageError env1 = some ("querying mercado libre url: " ++ e1) := by
    unfold queryStageError queryML
    simp [h1u, h1g]
  have q2 : queryStageError env2 = some "results not found in response" := by
    unfold queryStageError
    simp [h2q, h2r, h2m, h2e]
  have q3 : queryStageError env3 = some ("unmarshaling mercado libre response body: " ++ e3) := by
    unfold queryStageError
    simp [h3q, h3r, h3m]
  have q4 : queryStageError env4 = some ("requesting to mercado libre: " ++ status4) := by
    unfold queryStageError queryML
    simp [h4u, h4g, h4c]
  refine ⟨?_, ?_, ?_, ?_, ?_⟩
  · rw [q1, q2]
    intro h
    injection h with h
    exact absurd h (append_ne_of_take _ _ _ 1 (by decide) (by decide))
  · rw [q4, q2]
    intro h
    injection h with h
    exact absurd h (append_ne_of_take _ _ _ 3 (by decide) (by decide))
  · rw [q3, q2]
    intro h
    injection h with h
    exact absurd h (append_ne_of_take _ _ _ 1 (by decide) (by decide))
  · rw [q1, q3]
    intro h
    injection h with h
    exact absurd h (append_ne_append_of_take _ _ _ _ 1 (by decide) (by decide) (by decide))
  · rw [q4, q3]
    intro h
    injection h with h
    exact absurd h (append_ne_append_of_take _ _ _ _ 1 (by decide) (by decide) (by decide))

/-- C8 witness: the three concrete failing environments produce pairwise
distinct error values. -/
theorem C8_error_kinds_distinguishable_witness :
    queryStageError envQueryFail ≠ queryStageError envEmptyResults :=
  (C8_error_kinds_distinguishable envQueryFail envEmptyResults envParseFail envBadStatus
      "connection refused" "invalid character" "404 Not Found" "page" "page" "page" "page" ""
      { Results := [] } 404
      rfl rfl rfl rfl rfl rfl rfl rfl rfl rfl rfl (by decide)).1

/-- C1: in every complete run of main with n workers, each worker's outcome
rendezvous happens exactly once (no loss, no duplication) and strictly
before the collector honors the stop signal, and the number of receive
events in the whole schedule is exactly n: the cancellation issued after
wg.Wait() is observably ordered after every outcome send completed. -/
theorem C1_all_outcomes_received_before_stop (n : Nat) (sched : List MEv)
    (hv : ValidSchedule n sched) :
    (∀ i < n, sched.count (MEv.send i) = 1 ∧
      sched.indexOf (MEv.send i) < sched.indexOf MEv.stop) ∧
    (sched.filter (fun e => match e with | MEv.send _ => true | _ => false)).length = n := by
  constructor
  · intro i hi
    constructor
    · rw [hv.perm.count_eq]
      unfold allMainEvents
      rw [List.count_append, List.count_append]
      have c1 : ((List.range n).map MEv.send).count (MEv.send i) = 1 := by
        rw [List.count_map_of_injective _ _ (fun a b h => by injection h)]
        exact List.count_eq_one_of_mem (List.nodup_range n) (List.mem_range.mpr hi)
      have c2 : ((List.range n).map MEv.wdone).count (MEv.send i) = 0 := by
        rw [List.count_eq_zero]
        intro hmem
        obtain ⟨j, hj, hje⟩ := List.mem_map.mp hmem
        exact MEv.noConfusion hje
      have c3 : ([MEv.cancel, MEv.stop] : List MEv).count (MEv.send i) = 0 := by
        rw [List.count_eq_zero]
        simp
      rw [c1, c2, c3]
    · exact Nat.lt_trans (Nat.lt_trans (hv.send_before_done i hi) (hv.done_before_cancel i hi))
        hv.cancel_before_stop
  · have hp := hv.perm.filter (fun e => match e with | MEv.send _ => true | _ => false)
    rw [hp.length_eq]
    unfold allMainEvents
    rw [List.filter_append, List.filter_append]
    have f1 : ((List.range n).map MEv.send).filter
        (fun e => match e with | MEv.send _ => true | _ => false) = (List.range n).map MEv.send := by
      rw [List.filter_eq_self]
      intro a ha
      obtain ⟨j, hj, hje⟩ := List.mem_map.mp ha
      rw [← hje]
    have f2 : ((List.range n).map MEv.wdone).filter
        (fun e => match e with | MEv.send _ => true | _ => false) = [] := by
      rw [List.filter_eq_nil_iff]
      intro a ha
      obtain ⟨j, hj, hje⟩ := List.mem_map.mp ha
      rw [← hje]
      exact Bool.false_ne_true
    have f3 : ([MEv.cancel, MEv.stop] : List MEv).filter
        (fun e => match e with | MEv.send _ => true | _ => false) = [] := rfl
    rw [f1, f2, f3]
    simp

/-- C1 witness: the four-event schedule of a one-worker run. -/
theorem C1_all_outcomes_received_before_stop_witness :
    (allMainEvents 1).count (MEv.send 0) = 1 ∧
    (allMainEvents 1).indexOf (MEv.send 0) < (allMainEvents 1).indexOf MEv.stop :=
  (C1_all_outcomes_received_before_stop 1 (allMainEvents 1)
      ⟨List.Perm.refl _, by decide, by decide, by decide⟩).1 0 (by decide)

/-- extractUSD_no_match: a cell that is not the dollar marker leaves the
extraction state unchanged while the dollar flag is down. -/
theorem extractUSD_no_match (st : ExtractState) (i : Nat) (c : Cell)
    (hd : st.dollar = false) (hc : ¬(c.hasTit = true ∧ c.text = USD)) :
    extractUSD st i c = st := by
  unfold extractUSD
  rw [if_neg hc]
  simp [hd]

/-- eachTd_no_match: a row with no dollar-marker cell leaves the extraction
state unchanged while the dollar flag is down. -/
theorem eachTd_no_match (row : List Cell) :
    ∀ (i : Nat) (st : ExtractState), st.dollar = false →
      (∀ c ∈ row, ¬(c.hasTit = true ∧ c.text = USD)) →
      eachTd st i row = st := by
  induction row with
  | nil => intro i st _ _; rfl
  | cons c rest ih =>
    intro i st hd hc
    unfold eachTd
    rw [extractUSD_no_match st i c hd (hc c (List.mem_cons_self c rest))]
    exact ih (i + 1) st hd (fun c' hc' => hc c' (List.mem_cons_of_mem c hc'))

/-- processTable_no_match: a table with no dollar-marker cell leaves buy and
sell as the empty strings and the dollar flag down. -/
theorem processTable_no_match (rows : List (List Cell))
    (h : ∀ row ∈ rows, ∀ c ∈ row, ¬(c.hasTit = true ∧ c.text = USD)) :
    processTable rows = {} := by
  have hgen : ∀ (rs : List (List Cell)) (st : ExtractState), st.dollar = false →
      (∀ row ∈ rs, ∀ c ∈ row, ¬(c.hasTit = true ∧ c.text = USD)) →
      List.foldl (fun st row => eachTd st 0 row) st rs = st := by
    intro rs
    induction rs with
    | nil => intro st _ _; rfl
    | cons row rest ih =>
      intro st hd hh
      rw [List.foldl_cons, eachTd_no_match row 0 st hd (hh row (List.mem_cons_self row rest))]
      exact ih st hd (fun r hr c hc => hh r (List.mem_cons_of_mem row hr) c hc)
  exact hgen rows {} rfl h

/-- C10: when the fetched bank page holds no "tit" cell whose text is the
"Dolar U.S.A" marker, the buy and sell texts are never assigned, so
dolarizame returns decimal.Zero together with the non-nil error produced by
the failed parse of the still-empty sell string — it never computes a rate
from empty or default values. -/
theorem C10_no_dollar_marker_zero_and_error (ars : Decimal) (env : BnaEnv)
    (status : String) (rows : List (List Cell))
    (hget : env.get = BnaHttp.resp 200 status rows)
    (hdoc : env.docError = none)
    (hrows : ∀ row ∈ rows, ∀ c ∈ row, ¬(c.hasTit = true ∧ c.text = USD)) :
    dolarizame ars env =
      some (0, some "no se puede convertir el valor de venta a Decimal: can't convert  to decimal") := by
  have hpt : processTable rows = {} := processTable_no_match rows hrows
  unfold dolarizame
  rw [hget]
  simp only [hdoc, hpt]
  rfl

/-- bnaEnvNoDollar: a bank page with rows but no dollar marker. -/
def bnaEnvNoDollar : BnaEnv :=
  { get := BnaHttp.resp 200 "200 OK"
      [[{ hasTit := true, text := "Euro" }, { hasTit := false, text := "85" },
        { hasTit := false, text := "95" }]],
    docError := none }

/-- C10 witness: the concrete markerless page yields zero and the sell-parse
error. -/
theorem C10_no_dollar_marker_zero_and_error_witness :
    dolarizame 100 bnaEnvNoDollar =
      some (0, some "no se puede convertir el valor de venta a Decimal: can't convert  to decimal") :=
  C10_no_dollar_marker_zero_and_error 100 bnaEnvNoDollar "200 OK"
    [[{ hasTit := true, text := "Euro" }, { hasTit := false, text := "85" },
      { hasTit := false, text := "95" }]] rfl rfl (by decide)
